import Mathlib

/-!
Structured errors (`errors/errors.go`).

A shallow embedding of the Go package `errors`: the `Error` value (code, message,
details), the `ErrorInfo` detail record, the constructors `New` and `Newf`, the
mutator `WithDetails`, the display method `Error()` and the equivalence test
`(*Error).Is`, followed by theorems about them.

Conventions of the embedding.
* A Go pointer (`*Error`, `*ErrorInfo`) is represented by the record it points to;
  nil pointers are outside the model.  The one place where the code reads the
  address of a pointer rather than the record behind it is `Error()`, which prints
  the detail sequence; there the addresses of the `*ErrorInfo` pointers are given
  separately, by position in the sequence.
* `Details []interface{}` is a list of dynamically typed values.  The only thing
  the code asks of a value is whether its dynamic type is `*ErrorInfo`, so a value
  is either an `ErrorInfo` record or some other value.
* `int` is `Int` for `Code` (only compared for equality) and `Nat` for the loop
  counter `n` and for `len` (never negative, only incremented by one).
* A method that mutates its receiver returns the receiver's new value.
* `fmt.Sprintf` belongs to the Go standard library.  Its scanning of a format
  string is modelled for the directives the package uses (`%d`, `%s`, `%v`, `%+v`,
  `%%`), together with its printing of a slice and of a pointer; what it does on
  any other directive, and how it prints a value that is not a `*ErrorInfo`, is left
  uninterpreted (the fields of `Fmt`).
-/

namespace errors

set_option linter.dupNamespace false

/-- The Go struct `ErrorInfo`: a typed reason and a human-readable message. -/
structure ErrorInfo where
  Reason : String
  Message : String
  deriving DecidableEq, Repr

/-- One element of `Details []interface{}`: either a value of dynamic type
`*ErrorInfo`, or a value of any other dynamic type (kept as an uninterpreted tag). -/
inductive Detail where
  | errorInfo (info : ErrorInfo)
  | other (tag : String)
  deriving DecidableEq, Repr

/-- The Go struct `Error`. -/
structure Error where
  Code : Int
  Message : String
  Details : List Detail
  deriving DecidableEq, Repr

/-- A value of the Go interface type `error`, as far as `Is` can tell values apart:
its dynamic type is `*Error`, or it is some other error value, or it is the nil
interface value. -/
inductive GoError where
  | structured (e : Error)
  | foreign (text : String)
  | nilError
  deriving DecidableEq, Repr

/-- The first loop of `Is` (lines 47-51): walk `e.Details` in order and append every
value whose dynamic type is `*ErrorInfo` to `errs`. -/
def collectErrs (details : List Detail) : List ErrorInfo :=
  details.foldl
    (fun errs d =>
      match d with
      | Detail.errorInfo e => errs ++ [e]
      | Detail.other _ => errs)
    []

/-- The inner loop of `Is` (lines 54-58): for one target record `e`, walk `errs` and
increment the counter once for every `err` with `e.Reason == err.Reason`. -/
def countInner (e : ErrorInfo) (errs : List ErrorInfo) (n : Nat) : Nat :=
  errs.foldl (fun n err => if e.Reason = err.Reason then n + 1 else n) n

/-- The second loop of `Is` (lines 52-60): walk `te.Details` in order; every value
whose dynamic type is `*ErrorInfo` runs the inner loop over `errs`. -/
def countMatches (details : List Detail) (errs : List ErrorInfo) : Nat :=
  details.foldl
    (fun n d =>
      match d with
      | Detail.errorInfo e => countInner e errs n
      | Detail.other _ => n)
    0

/-- The method `(*Error).Is` (lines 32-62). -/
def Error.Is (e : Error) (target : GoError) : Bool :=
  match target with
  | GoError.structured te =>
    if e.Code ≠ te.Code ∨ e.Details.length ≠ te.Details.length then
      false
    else if e.Code = te.Code ∧ e.Details.length = 0 ∧ te.Details.length = 0 then
      true
    else
      let errs := collectErrs e.Details
      let n := countMatches te.Details errs
      decide (errs.length = n)
  | GoError.foreign _ => false
  | GoError.nilError => false

/-- The function `New` (lines 69-71): the result is an `error` whose dynamic type is
`*Error`.  A call without variadic arguments passes the empty list. -/
def New (code : Int) (message : String) (details : List Detail) : GoError :=
  GoError.structured { Code := code, Message := message, Details := details }

/-- The method `(*Error).WithDetails` (lines 27-29): `e.Details = append(e.Details,
details...)`.  The result is the value of the receiver after the call. -/
def Error.WithDetails (e : Error) (details : List Detail) : Error :=
  { e with Details := e.Details ++ details }

/-! ### The fragment of `fmt.Sprintf` used by the package -/

/-- One element of a `[]interface{}` operand as `fmt` reads it: a pointer to a struct
without methods (a `*ErrorInfo`), of which only the address is printed, or a value
of any other dynamic type (kept as an uninterpreted tag). -/
inductive Element where
  | pointer (address : Nat)
  | other (tag : String)
  deriving DecidableEq, Repr

/-- An operand of `fmt.Sprintf` (an `interface{}` value), by dynamic type: an `int`,
a `string`, a `[]interface{}`, or a value of any other type. -/
inductive Operand where
  | int (n : Int)
  | str (s : String)
  | slice (values : List Element)
  | value (d : Detail)
  deriving DecidableEq, Repr

/-- What is left uninterpreted of the package `fmt`: the text printed, inside a slice
under `%v` (flag false) or `%+v` (flag true), for a value that is not a `*ErrorInfo`,
and the result of `Sprintf` on a call that uses a directive, an operand type or an
operand count outside the modelled fragment. -/
structure Fmt where
  other : Bool → String → String
  outside : String → List Operand → String

/-- The text of an `int` under `%d` and `%v`: base ten, with a leading minus sign for
a negative number. -/
def decimal (n : Int) : String :=
  toString n

/-- The text of a pointer under `%v` and `%+v` when it is not printed as `&{...}`,
which `fmt` does only for an operand itself and not for an element of a slice:
`<nil>` for the nil pointer, otherwise `0x` and the address in lower-case
hexadecimal. -/
def pointerText (address : Nat) : String :=
  if address = 0 then "<nil>" else "0x" ++ String.mk (Nat.toDigits 16 address)

/-- The text of one element of a slice under `%v` or `%+v`. -/
def elementText (fmt : Fmt) (plusV : Bool) : Element → String
  | Element.pointer address => pointerText address
  | Element.other tag => fmt.other plusV tag

/-- The loop of `fmt` over the elements of a slice, from index `i` on, appending to
the buffer: a space before every element but the first, then the element. -/
def writeElements (fmt : Fmt) (plusV : Bool) : Nat → List Element → String → String
  | _, [], buf => buf
  | i, x :: rest, buf =>
    writeElements fmt plusV (i + 1) rest
      ((if i > 0 then buf ++ " " else buf) ++ elementText fmt plusV x)

/-- The text of a `[]interface{}` under `%v` or `%+v`: an opening bracket, the
elements written by the loop, a closing bracket. -/
def renderSlice (fmt : Fmt) (plusV : Bool) (values : List Element) : String :=
  writeElements fmt plusV 0 values "[" ++ "]"

/-- The text of one operand under one verb, for the combinations of the fragment:
`%d` and `%v` of an `int`, `%s` and `%v` of a `string`, `%v` of a slice (with or
without the flag `+` for `%v`).  Every other combination is outside the fragment. -/
def renderOperand (fmt : Fmt) ( plus : Bool) (verb : Char) (arg : Operand) : Option String :=
  match arg with
  | Operand.int n =>
    if verb = 'v' then some (decimal n)
    else if verb = 'd' ∧ plus = false then some (decimal n)
    else none
  | Operand.str s =>
    if verb = 'v' then some s
    else if verb = 's' ∧ plus = false then some s
    else none
  | Operand.slice values =>
    if verb = 'v' then some (renderSlice fmt plus values) else none
  | Operand.value _ => none

/-- Where the scan of a format string stands: in plain text, right after a `%`, or
right after `%+`. -/
inductive Scan where
  | text
  | percent
  | plusFlag
  deriving DecidableEq, Repr

/-- The scan of a format string, one character at a time: plain text is copied, `%%`
gives a percent sign, and `%verb` or `%+verb` prints the next operand.  The result is
`none` as soon as the call leaves the fragment: a directive that is cut off, has
another flag, a width or an unknown verb, an operand of the wrong type, a missing
operand, or operands left over at the end. -/
def sprintfScan (fmt : Fmt) : Scan → List Char → List Operand → Option String
  | Scan.text, [], [] => some ""
  | Scan.text, [], _ :: _ => none
  | Scan.text, c :: cs, args =>
    if c = '%' then sprintfScan fmt Scan.percent cs args
    else (sprintfScan fmt Scan.text cs args).map (fun out => c.toString ++ out)
  | Scan.percent, [], _ => none
  | Scan.percent, c :: cs, args =>
    if c = '%' then (sprintfScan fmt Scan.text cs args).map (fun out => "%" ++ out)
    else if c = '+' then sprintfScan fmt Scan.plusFlag cs args
    else
      match args with
      | [] => none
      | arg :: rest =>
        (renderOperand fmt false c arg).bind
          (fun piece => (sprintfScan fmt Scan.text cs rest).map (fun out => piece ++ out))
  | Scan.plusFlag, [], _ => none
  | Scan.plusFlag, c :: cs, args =>
    match args with
    | [] => none
    | arg :: rest =>
      (renderOperand fmt true c arg).bind
        (fun piece => (sprintfScan fmt Scan.text cs rest).map (fun out => piece ++ out))

/-- The function `fmt.Sprintf`: the scan above on the fragment, and the
uninterpreted `Fmt.outside` everywhere else. -/
def Sprintf (fmt : Fmt) (format : String) (a : List Operand) : String :=
  match sprintfScan fmt Scan.text format.toList a with
  | some out => out
  | none => fmt.outside format a

/-- The detail sequence as the operand that `fmt` receives, from position `i` on: a
`*ErrorInfo` is the pointer stored at that position, whose address is `addr i`; any
other value is itself. -/
def elementsFrom (addr : Nat → Nat) : Nat → List Detail → List Element
  | _, [] => []
  | i, Detail.errorInfo _ :: rest => Element.pointer (addr i) :: elementsFrom addr (i + 1) rest
  | i, Detail.other tag :: rest => Element.other tag :: elementsFrom addr (i + 1) rest

/-- The method `(*Error).Error` (lines 64-66).  The argument `addr` gives, for every
position of `e.Details` that holds a `*ErrorInfo`, the address of that pointer (not
zero, since nil pointers are outside the model). -/
def Error.Error (fmt : Fmt) (addr : Nat → Nat) (e : Error) : String :=
  Sprintf fmt "error: code = %d desc = %s details = %+v"
    [Operand.int e.Code, Operand.str e.Message, Operand.slice (elementsFrom addr 0 e.Details)]

/-- The function `Newf` (lines 74-76): `New(code, fmt.Sprintf(format, a...))`, a call
of `New` without variadic arguments. -/
def Newf (fmt : Fmt) (code : Int) (format : String) (a : List Operand) : GoError :=
  New code (Sprintf fmt format a) []

/-! ### Vocabulary used to state the properties -/

/-- The record behind a detail whose dynamic type is `*ErrorInfo`, if it is one. -/
def Detail.info? : Detail → Option ErrorInfo
  | Detail.errorInfo info => some info
  | Detail.other _ => none

/-- The `ErrorInfo` records among a detail sequence, in order (the list `R` when
applied to the receiver's details). -/
def infos (details : List Detail) : List ErrorInfo :=
  details.filterMap Detail.info?

/-- The reasons of the `ErrorInfo` records among a detail sequence, in order. -/
def reasons (details : List Detail) : List String :=
  (infos details).map ErrorInfo.Reason

/-- The match count as the specification words it: the number of `ErrorInfo`
records `t'` among the target's details for which `R` contains at least one record
with the same reason, each such `t'` counted once. -/
def specMatchCount (targetDetails : List Detail) (R : List ErrorInfo) : Nat :=
  (infos targetDetails).countP (fun t' => R.any (fun r => r.Reason == t'.Reason))

/-- The match count in which a target record `t'` is counted once for every record
of `R` that has its reason. -/
def pairMatchCount (targetDetails : List Detail) (R : List ErrorInfo) : Nat :=
  ((infos targetDetails).map (fun t' => R.countP (fun r => r.Reason == t'.Reason))).sum

/-- Replace the message of a detail when it is an `ErrorInfo` record. -/
def Detail.setMessage (d : Detail) (m : String) : Detail :=
  match d with
  | Detail.errorInfo info => Detail.errorInfo { info with Message := m }
  | Detail.other tag => Detail.other tag

/-- Replace the message of the record at position `i` of a detail sequence (nothing
changes when `i` is out of range or the value there is not an `ErrorInfo`). -/
def setDetailMessage : List Detail → Nat → String → List Detail
  | [], _, _ => []
  | d :: ds, 0, m => d.setMessage m :: ds
  | d :: ds, i + 1, m => d :: setDetailMessage ds i m

/-- Replace a detail that is not an `ErrorInfo` record by another value that is not
an `ErrorInfo` record; an `ErrorInfo` record is left alone. -/
def Detail.replaceOther (d : Detail) (tag : String) : Detail :=
  match d with
  | Detail.errorInfo info => Detail.errorInfo info
  | Detail.other _ => Detail.other tag

/-- Replace the value at position `i` of a detail sequence, when it is not an
`ErrorInfo` record, by another value that is not an `ErrorInfo` record. -/
def replaceOtherAt : List Detail → Nat → String → List Detail
  | [], _, _ => []
  | d :: ds, 0, tag => d.replaceOther tag :: ds
  | d :: ds, i + 1, tag => d :: replaceOtherAt ds i tag

/-- The number of pairs of equal reasons between the target's and the receiver's
reason lists. -/
def reasonPairs (targetReasons receiverReasons : List String) : Nat :=
  (targetReasons.map (fun a => receiverReasons.count a)).sum

/-- The pairs `(r, t')` of an `ErrorInfo` record `r` of the receiver's details and
an `ErrorInfo` record `t'` of the target's details, taken by position, whose reasons
are equal. -/
def matchingPairs (receiverDetails targetDetails : List Detail) :
    List (ErrorInfo × ErrorInfo) :=
  (List.product (infos receiverDetails) (infos targetDetails)).filter
    (fun p => p.1.Reason == p.2.Reason)

/-- Every value of a detail sequence is an `ErrorInfo` record. -/
def allErrorInfo (details : List Detail) : Bool :=
  details.all (fun d => d.info?.isSome)

/-- The text that `Error()` shows for the detail at position `i`: the address of the
pointer in hexadecimal for an `ErrorInfo` record, the text of the value otherwise. -/
def detailText (fmt : Fmt) (addr : Nat → Nat) (i : Nat) (d : Detail) : String :=
  match d with
  | Detail.errorInfo _ => pointerText (addr i)
  | Detail.other tag => fmt.other true tag

/-- Replace the fields of the `ErrorInfo` record at position `i` of a detail sequence
by those of another record (nothing changes when `i` is out of range or the value
there is not an `ErrorInfo`). -/
def replaceInfoAt : List Detail → Nat → ErrorInfo → List Detail
  | [], _, _ => []
  | Detail.errorInfo _ :: ds, 0, info => Detail.errorInfo info :: ds
  | Detail.other tag :: ds, 0, _ => Detail.other tag :: ds
  | d :: ds, i + 1, info => d :: replaceInfoAt ds i info

/-- The string `s` contains the string `sub` as a run of consecutive characters. -/
def containsText (s sub : String) : Prop :=
  List.IsInfix sub.data s.data

/-! ### The loops in closed form -/

theorem collectErrs_foldl (details : List Detail) (acc : List ErrorInfo) :
    details.foldl
      (fun errs d =>
        match d with
        | Detail.errorInfo e => errs ++ [e]
        | Detail.other _ => errs)
      acc = acc ++ infos details := by
  induction details generalizing acc with
  | nil => simp [infos]
  | cons d ds ih =>
    cases d with
    | errorInfo e => simp [ih, infos, Detail.info?]
    | other tag => simp [ih, infos, Detail.info?]

theorem collectErrs_eq_infos (details : List Detail) : collectErrs details = infos details := by
  simpa [collectErrs] using collectErrs_foldl details []

theorem countInner_eq (e : ErrorInfo) (errs : List ErrorInfo) (n : Nat) :
    countInner e errs n = n + (errs.map ErrorInfo.Reason).count e.Reason := by
  unfold countInner
  induction errs generalizing n with
  | nil => simp
  | cons err errs ih =>
    simp only [List.foldl_cons, List.map_cons, List.count_cons]
    rw [ih]
    by_cases h : e.Reason = err.Reason
    · simp [h]; omega
    · have h' : ¬ err.Reason = e.Reason := fun h'' => h h''.symm
      simp [h, h']

theorem countMatches_foldl (details : List Detail) (errs : List ErrorInfo) (n : Nat) :
    details.foldl
      (fun n d =>
        match d with
        | Detail.errorInfo e => countInner e errs n
        | Detail.other _ => n)
      n = n + reasonPairs (reasons details) (errs.map ErrorInfo.Reason) := by
  induction details generalizing n with
  | nil => simp [reasonPairs, reasons, infos]
  | cons d ds ih =>
    cases d with
    | errorInfo e =>
      simp only [List.foldl_cons]
      rw [ih, countInner_eq]
      simp [reasonPairs, reasons, infos, Detail.info?]
      omega
    | other tag =>
      simp only [List.foldl_cons]
      rw [ih]
      simp [reasonPairs, reasons, infos, Detail.info?]

theorem countMatches_eq (details : List Detail) (errs : List ErrorInfo) :
    countMatches details errs = reasonPairs (reasons details) (errs.map ErrorInfo.Reason) := by
  simpa [countMatches] using countMatches_foldl details errs 0

/-- The method `Is` on a structured target, in closed form: codes equal, detail
sequences of equal length, and as many equal-reason pairs as receiver records. -/
theorem Is_structured_eq (e t : Error) :
    e.Is (GoError.structured t) =
      decide (e.Code = t.Code ∧ e.Details.length = t.Details.length ∧
        (reasons e.Details).length = reasonPairs (reasons t.Details) (reasons e.Details)) := by
  unfold Error.Is
  simp only [collectErrs_eq_infos, countMatches_eq]
  by_cases hc : e.Code = t.Code
  · by_cases hl : e.Details.length = t.Details.length
    · by_cases hz : e.Details.length = 0
      · have he : e.Details = [] := List.length_eq_zero.mp hz
        have ht : t.Details = [] := List.length_eq_zero.mp (hl ▸ hz)
        simp [hc, he, ht, reasons, infos, reasonPairs]
      · simp [hc, hl, hz, reasons]
        intro h0
        rw [h0] at hl
        exact absurd hl hz
    · simp [hc, hl]
  · simp [hc]

/-! ### Facts about the closed form -/

theorem pairMatchCount_eq_reasonPairs (targetDetails receiverDetails : List Detail) :
    pairMatchCount targetDetails (infos receiverDetails) =
      reasonPairs (reasons targetDetails) (reasons receiverDetails) := by
  unfold pairMatchCount reasonPairs reasons
  rw [List.map_map]
  congr 1
  apply List.map_congr_left
  intro t' _
  simp only [Function.comp_apply, List.count, List.countP_map]
  rfl

theorem Detail.info?_setMessage_reason (d : Detail) (m : String) :
    (d.setMessage m).info?.map ErrorInfo.Reason = d.info?.map ErrorInfo.Reason := by
  cases d <;> rfl

theorem reasons_cons (d : Detail) (ds : List Detail) :
    reasons (d :: ds) = (d.info?.map ErrorInfo.Reason).toList ++ reasons ds := by
  cases d <;> simp [reasons, infos, Detail.info?]

theorem length_setDetailMessage (ds : List Detail) (i : Nat) (m : String) :
    (setDetailMessage ds i m).length = ds.length := by
  induction ds generalizing i with
  | nil => simp [setDetailMessage]
  | cons d ds ih => cases i <;> simp [setDetailMessage, ih]

theorem reasons_setDetailMessage (ds : List Detail) (i : Nat) (m : String) :
    reasons (setDetailMessage ds i m) = reasons ds := by
  induction ds generalizing i with
  | nil => simp [setDetailMessage]
  | cons d ds ih =>
    cases i with
    | zero => simp [setDetailMessage, reasons_cons, Detail.info?_setMessage_reason]
    | succ i => simp [setDetailMessage, reasons_cons, ih]

theorem Detail.info?_replaceOther (d : Detail) (tag : String) :
    (d.replaceOther tag).info? = d.info? := by
  cases d <;> rfl

theorem length_replaceOtherAt (ds : List Detail) (i : Nat) (tag : String) :
    (replaceOtherAt ds i tag).length = ds.length := by
  induction ds generalizing i with
  | nil => simp [replaceOtherAt]
  | cons d ds ih => cases i <;> simp [replaceOtherAt, ih]

theorem reasons_replaceOtherAt (ds : List Detail) (i : Nat) (tag : String) :
    reasons (replaceOtherAt ds i tag) = reasons ds := by
  induction ds generalizing i with
  | nil => simp [replaceOtherAt]
  | cons d ds ih =>
    cases i with
    | zero => simp [replaceOtherAt, reasons_cons, Detail.info?_replaceOther]
    | succ i => simp [replaceOtherAt, reasons_cons, ih]

theorem reasons_perm {ds ds' : List Detail} (h : ds.Perm ds') :
    (reasons ds).Perm (reasons ds') :=
  (h.filterMap Detail.info?).map ErrorInfo.Reason

theorem reasonPairs_perm {tr tr' er er' : List String} (ht : tr.Perm tr') (he : er.Perm er') :
    reasonPairs tr er = reasonPairs tr' er' := by
  unfold reasonPairs
  have hfun : (fun a => er.count a) = (fun a => er'.count a) := by
    funext a
    exact he.count_eq a
  rw [hfun]
  exact (ht.map _).sum_eq

/-- The result of `Is` on a structured target depends on the two errors only through
their codes, the lengths of their detail sequences, and the reasons of their
`ErrorInfo` records up to order. -/
theorem Is_congr (e e' t t' : Error) (hce : e'.Code = e.Code) (hct : t'.Code = t.Code)
    (hle : e'.Details.length = e.Details.length) (hlt : t'.Details.length = t.Details.length)
    (hre : (reasons e'.Details).Perm (reasons e.Details))
    (hrt : (reasons t'.Details).Perm (reasons t.Details)) :
    e'.Is (GoError.structured t') = e.Is (GoError.structured t) := by
  rw [Is_structured_eq, Is_structured_eq, hce, hct, hle, hlt, hre.length_eq,
    reasonPairs_perm hrt hre]

/-! ### The equivalence test `Is` -/

/-- C1 (as stated) fails: for the receiver with two `ErrorInfo` records of reason "A"
and the target with one record of reason "A" and one of reason "B" (same code, same
length 2), `Is` returns true although the count of target records having a match in
`R` is 1 and `len(R)` is 2. -/
theorem Is_specMatchCount_counterexample :
    (Error.mk 1 "x" [Detail.errorInfo ⟨"A", "m1"⟩, Detail.errorInfo ⟨"A", "m2"⟩]).Is
        (GoError.structured
          (Error.mk 1 "x" [Detail.errorInfo ⟨"A", "m3"⟩, Detail.errorInfo ⟨"B", "m4"⟩])) = true ∧
      specMatchCount [Detail.errorInfo ⟨"A", "m3"⟩, Detail.errorInfo ⟨"B", "m4"⟩]
        (infos [Detail.errorInfo ⟨"A", "m1"⟩, Detail.errorInfo ⟨"A", "m2"⟩]) = 1 ∧
      (infos [Detail.errorInfo ⟨"A", "m1"⟩, Detail.errorInfo ⟨"A", "m2"⟩]).length = 2 := by
  decide

/-- C1 (amended): for a receiver `e` and a structured target `t` with equal code and
equal, non-zero detail-sequence length, `e.Is(t)` is true if and only if `n == len(R)`,
where `R` is the list of `ErrorInfo` records among `e`'s details and `n` counts every
`ErrorInfo` record `t'` of `t`'s details once for each record of `R` with the same
reason. -/
theorem Is_iff_pairMatchCount (e t : Error) (hc : e.Code = t.Code)
    (hl : e.Details.length = t.Details.length) (_hz : e.Details.length ≠ 0) :
    e.Is (GoError.structured t) = true ↔
      pairMatchCount t.Details (infos e.Details) = (infos e.Details).length := by
  have hlen : (reasons e.Details).length = (infos e.Details).length := by
    simp [reasons]
  rw [Is_structured_eq, pairMatchCount_eq_reasonPairs, decide_eq_true_iff, hlen]
  constructor
  · intro h
    exact h.2.2.symm
  · intro h
    exact ⟨hc, hl, h.symm⟩

/-- C1 (amended), at a concrete input: receiver `[A, A]`, target `[A, placeholder]`. -/
theorem Is_iff_pairMatchCount_witness :
    (Error.mk 7 "x" [Detail.errorInfo ⟨"A", "m1"⟩, Detail.errorInfo ⟨"A", "m2"⟩]).Code =
        (Error.mk 7 "y" [Detail.errorInfo ⟨"A", "m3"⟩, Detail.other "p"]).Code ∧
      (Error.mk 7 "x" [Detail.errorInfo ⟨"A", "m1"⟩, Detail.errorInfo ⟨"A", "m2"⟩]).Details.length =
        (Error.mk 7 "y" [Detail.errorInfo ⟨"A", "m3"⟩, Detail.other "p"]).Details.length ∧
      (Error.mk 7 "x" [Detail.errorInfo ⟨"A", "m1"⟩, Detail.errorInfo ⟨"A", "m2"⟩]).Details.length ≠ 0 ∧
      ((Error.mk 7 "x" [Detail.errorInfo ⟨"A", "m1"⟩, Detail.errorInfo ⟨"A", "m2"⟩]).Is
          (GoError.structured (Error.mk 7 "y" [Detail.errorInfo ⟨"A", "m3"⟩, Detail.other "p"])) = true ↔
        pairMatchCount [Detail.errorInfo ⟨"A", "m3"⟩, Detail.other "p"]
            (infos [Detail.errorInfo ⟨"A", "m1"⟩, Detail.errorInfo ⟨"A", "m2"⟩]) =
          (infos [Detail.errorInfo ⟨"A", "m1"⟩, Detail.errorInfo ⟨"A", "m2"⟩]).length) :=
  ⟨rfl, rfl, by decide,
    Is_iff_pairMatchCount
      (Error.mk 7 "x" [Detail.errorInfo ⟨"A", "m1"⟩, Detail.errorInfo ⟨"A", "m2"⟩])
      (Error.mk 7 "y" [Detail.errorInfo ⟨"A", "m3"⟩, Detail.other "p"]) rfl rfl (by decide)⟩

/-- C2 (as stated) fails: the receiver with two `ErrorInfo` records of reason "A" is
equivalent to the target with one `ErrorInfo` record of reason "A" and one
placeholder, in either order of the target's details: `Is` returns true, not false. -/
theorem Is_duplicate_reason_counterexample :
    (Error.mk 1 "x" [Detail.errorInfo ⟨"A", "m1"⟩, Detail.errorInfo ⟨"A", "m2"⟩]).Is
        (GoError.structured
          (Error.mk 1 "x" [Detail.errorInfo ⟨"A", "m3"⟩, Detail.other "placeholder"])) = true ∧
      (Error.mk 1 "x" [Detail.errorInfo ⟨"A", "m1"⟩, Detail.errorInfo ⟨"A", "m2"⟩]).Is
        (GoError.structured
          (Error.mk 1 "x" [Detail.other "placeholder", Detail.errorInfo ⟨"A", "m3"⟩])) = true := by
  decide

/-- C2 (amended): for every code, reason `A` and messages, if `e` has exactly two
details, both `ErrorInfo` records with reason `A`, and `t` has the same code and
exactly two details, one `ErrorInfo` record with reason `A` and one placeholder that
is not an `ErrorInfo` (in either order), then `e.Is(t)` returns true: the single
target record is counted once for each of the two receiver records. -/
theorem Is_duplicate_reason (c : Int) (A me mt m1 m2 m3 tag : String) :
    (Error.mk c me [Detail.errorInfo ⟨A, m1⟩, Detail.errorInfo ⟨A, m2⟩]).Is
        (GoError.structured
          (Error.mk c mt [Detail.errorInfo ⟨A, m3⟩, Detail.other tag])) = true ∧
      (Error.mk c me [Detail.errorInfo ⟨A, m1⟩, Detail.errorInfo ⟨A, m2⟩]).Is
        (GoError.structured
          (Error.mk c mt [Detail.other tag, Detail.errorInfo ⟨A, m3⟩])) = true := by
  constructor <;>
    simp [Is_structured_eq, reasons, infos, Detail.info?, reasonPairs]

/-- C3: `Is` is reason-only.  Replacing the top-level message of the receiver or of
the target, or the message of the `ErrorInfo` record at any position of the
receiver's or the target's details, by any string does not change the result; and
two errors with the same code and a single `ErrorInfo` record each, with the same
reason and any messages, are equivalent. -/
theorem Is_reason_only (e t : Error) :
    (∀ (m : String) (target : GoError), Error.Is { e with Message := m } target = e.Is target) ∧
      (∀ m : String,
        e.Is (GoError.structured { t with Message := m }) = e.Is (GoError.structured t)) ∧
      (∀ (i : Nat) (m : String) (target : GoError),
        Error.Is { e with Details := setDetailMessage e.Details i m } target = e.Is target) ∧
      (∀ (i : Nat) (m : String),
        e.Is (GoError.structured { t with Details := setDetailMessage t.Details i m }) =
          e.Is (GoError.structured t)) ∧
      (∀ (c : Int) (A me mt m1 m2 : String),
        (Error.mk c me [Detail.errorInfo ⟨A, m1⟩]).Is
          (GoError.structured (Error.mk c mt [Detail.errorInfo ⟨A, m2⟩])) = true) := by
  refine ⟨?_, ?_, ?_, ?_, ?_⟩
  · intro m target
    cases target with
    | structured te => simp [Is_structured_eq]
    | foreign text => rfl
    | nilError => rfl
  · intro m
    simp [Is_structured_eq]
  · intro i m target
    cases target with
    | structured te =>
      simp [Is_structured_eq, length_setDetailMessage, reasons_setDetailMessage]
    | foreign text => rfl
    | nilError => rfl
  · intro i m
    simp [Is_structured_eq, length_setDetailMessage, reasons_setDetailMessage]
  · intro c A me mt m1 m2
    simp [Is_structured_eq, reasons, infos, Detail.info?, reasonPairs]

/-- C4: `Is` is order-independent.  Replacing the receiver's detail sequence by any
permutation of it and the target's detail sequence by any permutation of it does not
change the result. -/
theorem Is_perm (e t : Error) (de dt : List Detail) (he : de.Perm e.Details)
    (ht : dt.Perm t.Details) :
    Error.Is { e with Details := de } (GoError.structured { t with Details := dt }) =
      e.Is (GoError.structured t) :=
  Is_congr e { e with Details := de } t { t with Details := dt } rfl rfl he.length_eq
    ht.length_eq (reasons_perm he) (reasons_perm ht)

/-- C4, at a concrete input: both detail sequences reversed. -/
theorem Is_perm_witness :
    [Detail.other "p", Detail.errorInfo ⟨"A", "m1"⟩].Perm
        [Detail.errorInfo ⟨"A", "m1"⟩, Detail.other "p"] ∧
      [Detail.errorInfo ⟨"A", "m3"⟩, Detail.errorInfo ⟨"B", "m2"⟩].Perm
        [Detail.errorInfo ⟨"B", "m2"⟩, Detail.errorInfo ⟨"A", "m3"⟩] ∧
      (Error.mk 1 "x" [Detail.other "p", Detail.errorInfo ⟨"A", "m1"⟩]).Is
          (GoError.structured
            (Error.mk 1 "y" [Detail.errorInfo ⟨"A", "m3"⟩, Detail.errorInfo ⟨"B", "m2"⟩])) =
        (Error.mk 1 "x" [Detail.errorInfo ⟨"A", "m1"⟩, Detail.other "p"]).Is
          (GoError.structured
            (Error.mk 1 "y" [Detail.errorInfo ⟨"B", "m2"⟩, Detail.errorInfo ⟨"A", "m3"⟩])) :=
  ⟨List.Perm.swap _ _ _, List.Perm.swap _ _ _,
    Is_perm (Error.mk 1 "x" [Detail.errorInfo ⟨"A", "m1"⟩, Detail.other "p"])
      (Error.mk 1 "y" [Detail.errorInfo ⟨"B", "m2"⟩, Detail.errorInfo ⟨"A", "m3"⟩])
      [Detail.other "p", Detail.errorInfo ⟨"A", "m1"⟩]
      [Detail.errorInfo ⟨"A", "m3"⟩, Detail.errorInfo ⟨"B", "m2"⟩]
      (List.Perm.swap _ _ _) (List.Perm.swap _ _ _)⟩

/-- C5: `Is` is asymmetric: there are structured errors `e` and `t` with `e.Is(t)`
true and `t.Is(e)` false (one placeholder detail against one `ErrorInfo` record). -/
theorem Is_asymmetric :
    ∃ e t : Error, e.Is (GoError.structured t) = true ∧ t.Is (GoError.structured e) = false :=
  ⟨Error.mk 1 "x" [Detail.other "p"], Error.mk 1 "x" [Detail.errorInfo ⟨"A", "m"⟩],
    by decide, by decide⟩

/-- C6: when the codes of the receiver and of a structured target differ, `Is`
returns false, whatever the messages and details are. -/
theorem Is_code_mismatch (e t : Error) (h : e.Code ≠ t.Code) :
    e.Is (GoError.structured t) = false := by
  simp [Error.Is, h]

/-- C6, at the concrete input `New(1, "x").Is(New(2, "x"))`. -/
theorem Is_code_mismatch_witness :
    (Error.mk 1 "x" []).Code ≠ (Error.mk 2 "x" []).Code ∧
      (Error.mk 1 "x" []).Is (GoError.structured (Error.mk 2 "x" [])) = false :=
  ⟨by decide, Is_code_mismatch (Error.mk 1 "x" []) (Error.mk 2 "x" []) (by decide)⟩

/-- C7: when the detail sequences of the receiver and of a structured target have
different lengths (all values counted), `Is` returns false, also when the codes are
equal; in particular `New(1, "x", d1).Is(New(1, "x"))` is false for every `d1`. -/
theorem Is_length_mismatch (e t : Error) (h : e.Details.length ≠ t.Details.length) :
    e.Is (GoError.structured t) = false ∧
      ∀ d1 : Detail, ∃ r : Error,
        New 1 "x" [d1] = GoError.structured r ∧ r.Is (New 1 "x" []) = false := by
  constructor
  · simp [Error.Is, h]
  · intro d1
    exact ⟨Error.mk 1 "x" [d1], rfl, by simp [New, Error.Is]⟩

/-- C7, at a concrete input with equal codes: two details against one. -/
theorem Is_length_mismatch_witness :
    (Error.mk 1 "x" [Detail.errorInfo ⟨"A", "m"⟩, Detail.other "p"]).Details.length ≠
        (Error.mk 1 "x" [Detail.errorInfo ⟨"A", "m"⟩]).Details.length ∧
      (Error.mk 1 "x" [Detail.errorInfo ⟨"A", "m"⟩, Detail.other "p"]).Is
        (GoError.structured (Error.mk 1 "x" [Detail.errorInfo ⟨"A", "m"⟩])) = false :=
  ⟨by decide,
    (Is_length_mismatch (Error.mk 1 "x" [Detail.errorInfo ⟨"A", "m"⟩, Detail.other "p"])
      (Error.mk 1 "x" [Detail.errorInfo ⟨"A", "m"⟩]) (by decide)).1⟩

/-- C8: for every code `c` and all messages `m1`, `m2`, `New(c, m1).Is(New(c, m2))`
returns true: the receiver is the `*Error` that `New(c, m1)` returns, so two
structured errors with the same code and empty detail sequences are equivalent
whatever their messages. -/
theorem Is_New_empty (c : Int) (m1 m2 : String) :
    ∃ r : Error,
      New c m1 [] = GoError.structured r ∧ r.Code = c ∧ r.Message = m1 ∧ r.Details = [] ∧
        r.Is (New c m2 []) = true :=
  ⟨Error.mk c m1 [], rfl, rfl, rfl, rfl, by simp [New, Error.Is]⟩

/-- C9: values that are not `ErrorInfo` records are ignored for matching.  Replacing
the value at any position of the receiver's or of the target's details, when it is
not an `ErrorInfo` record, by any other value that is not an `ErrorInfo` record does
not change the result of `Is`. -/
theorem Is_replaceOther (e t : Error) :
    (∀ (i : Nat) (tag : String) (target : GoError),
        Error.Is { e with Details := replaceOtherAt e.Details i tag } target = e.Is target) ∧
      (∀ (i : Nat) (tag : String),
        e.Is (GoError.structured { t with Details := replaceOtherAt t.Details i tag }) =
          e.Is (GoError.structured t)) := by
  refine ⟨?_, ?_⟩
  · intro i tag target
    cases target with
    | structured te =>
      simp [Is_structured_eq, length_replaceOtherAt, reasons_replaceOtherAt]
    | foreign text => rfl
    | nilError => rfl
  · intro i tag
    simp [Is_structured_eq, length_replaceOtherAt, reasons_replaceOtherAt]

/-- C10: for every receiver and every target error value whose dynamic type is not
`*Error`, `Is` returns false. -/
theorem Is_not_structured (e : Error) (target : GoError)
    (h : ∀ t : Error, target ≠ GoError.structured t) : e.Is target = false := by
  cases target with
  | structured t => exact absurd rfl (h t)
  | foreign text => rfl
  | nilError => rfl

/-- C10, at a concrete input: a foreign error value as target. -/
theorem Is_not_structured_witness :
    (∀ t : Error, GoError.foreign "EOF" ≠ GoError.structured t) ∧
      (Error.mk 1 "x" []).Is (GoError.foreign "EOF") = false :=
  ⟨fun _ h => GoError.noConfusion h,
    Is_not_structured (Error.mk 1 "x" []) (GoError.foreign "EOF")
      (fun _ h => GoError.noConfusion h)⟩

/-! ### Display and construction -/

theorem data_toString (c : Char) : c.toString.data = [c] := rfl

theorem intercalate_go_append (before acc sep : String) (l : List String) :
    String.intercalate.go (before ++ acc) sep l = before ++ String.intercalate.go acc sep l := by
  induction l generalizing acc with
  | nil => rfl
  | cons a l ih =>
    simp only [String.intercalate.go]
    rw [← ih, String.append_assoc, String.append_assoc, String.append_assoc]

theorem writeElements_succ (fmt : Fmt) (plusV : Bool) (i : Nat) (xs : List Element)
    (buf : String) :
    writeElements fmt plusV (i + 1) xs buf =
      String.intercalate.go buf " " (xs.map (elementText fmt plusV)) := by
  induction xs generalizing i buf with
  | nil => rfl
  | cons x rest ih =>
    simp only [writeElements, List.map_cons, String.intercalate.go]
    rw [ih]
    simp

/-- The loop over a slice writes the texts of all its elements, in order, separated
by single spaces. -/
theorem renderSlice_eq (fmt : Fmt) (plusV : Bool) (values : List Element) :
    renderSlice fmt plusV values =
      "[" ++ " ".intercalate (values.map (elementText fmt plusV)) ++ "]" := by
  cases values with
  | nil => rfl
  | cons x rest =>
    simp only [renderSlice, writeElements, List.map_cons, String.intercalate]
    rw [writeElements_succ, ← intercalate_go_append]
    simp

theorem map_elementText_elementsFrom (fmt : Fmt) (addr : Nat → Nat) (i : Nat)
    (ds : List Detail) :
    (elementsFrom addr i ds).map (elementText fmt true) =
      (ds.enumFrom i).map (fun p => detailText fmt addr p.1 p.2) := by
  induction ds generalizing i with
  | nil => rfl
  | cons d ds ih =>
    cases d with
    | errorInfo info => simp [elementsFrom, elementText, detailText, List.enumFrom, ih]
    | other tag => simp [elementsFrom, elementText, detailText, List.enumFrom, ih]

theorem elementsFrom_replaceInfoAt (addr : Nat → Nat) (k : Nat) (ds : List Detail) (i : Nat)
    (info : ErrorInfo) :
    elementsFrom addr k (replaceInfoAt ds i info) = elementsFrom addr k ds := by
  induction ds generalizing k i with
  | nil => cases i <;> rfl
  | cons d ds ih =>
    cases i with
    | zero => cases d <;> rfl
    | succ i => cases d <;> simp [replaceInfoAt, elementsFrom, ih]

/-- The format string of `Error()` scanned: the three literal pieces with the three
operands printed in between. -/
theorem Error_unfold (fmt : Fmt) (addr : Nat → Nat) (e : Error) :
    e.Error fmt addr =
      "error: code = " ++ decimal e.Code ++ " desc = " ++ e.Message ++ " details = " ++
        renderSlice fmt true (elementsFrom addr 0 e.Details) := by
  simp only [Error.Error, Sprintf, sprintfScan, renderOperand]
  apply String.ext
  simp [String.data_append, data_toString]

theorem containsText_of_eq (s before mid after : String) (h : s = before ++ mid ++ after) :
    containsText s mid :=
  ⟨before.data, after.data, by simp [h, String.data_append]⟩

theorem Error_contains_message (fmt : Fmt) (addr : Nat → Nat) (e : Error) :
    containsText (e.Error fmt addr) e.Message :=
  containsText_of_eq (e.Error fmt addr) ("error: code = " ++ decimal e.Code ++ " desc = ")
    e.Message (" details = " ++ renderSlice fmt true (elementsFrom addr 0 e.Details))
    (by rw [Error_unfold]; apply String.ext; simp [String.data_append])

/-! ### Counting equal-reason pairs -/

theorem sum_map_count_cons (a : String) (l m : List String) :
    (m.map (fun b => (a :: l).count b)).sum = (m.map (fun b => l.count b)).sum + m.count a := by
  induction m with
  | nil => simp
  | cons b m ih =>
    rw [List.map_cons, List.sum_cons, ih, List.map_cons, List.sum_cons, List.count_cons,
      List.count_cons]
    by_cases h : a = b
    · subst h
      simp
      omega
    · have h' : ¬ b = a := fun h'' => h h''.symm
      simp [h, h']
      omega

theorem reasonPairs_cons_left (a : String) (l m : List String) :
    reasonPairs (a :: l) m = m.count a + reasonPairs l m := by
  simp [reasonPairs]

theorem reasonPairs_comm (l m : List String) : reasonPairs l m = reasonPairs m l := by
  induction l with
  | nil => simp [reasonPairs]
  | cons a l ih =>
    rw [reasonPairs_cons_left, ih]
    unfold reasonPairs
    rw [sum_map_count_cons]
    omega

theorem product_cons_eq (a : ErrorInfo) (l m : List ErrorInfo) :
    List.product (a :: l) m = m.map (Prod.mk a) ++ List.product l m := by
  simp [List.product]

theorem length_filter_product (l m : List ErrorInfo) :
    ((List.product l m).filter (fun p => p.1.Reason == p.2.Reason)).length =
      reasonPairs (l.map ErrorInfo.Reason) (m.map ErrorInfo.Reason) := by
  induction l with
  | nil => simp [reasonPairs, List.product]
  | cons a l ih =>
    have hhead : ((m.map (Prod.mk a)).filter (fun p => p.1.Reason == p.2.Reason)).length =
        (m.map ErrorInfo.Reason).count a.Reason := by
      rw [List.filter_map, List.length_map, ← List.countP_eq_length_filter, List.count,
        List.countP_map]
      apply List.countP_congr
      intro t' _
      simp only [Function.comp_apply, beq_iff_eq]
      exact eq_comm
    rw [product_cons_eq, List.filter_append, List.length_append, hhead, ih, List.map_cons,
      reasonPairs_cons_left]

theorem length_matchingPairs (receiverDetails targetDetails : List Detail) :
    (matchingPairs receiverDetails targetDetails).length =
      reasonPairs (reasons targetDetails) (reasons receiverDetails) := by
  unfold matchingPairs
  rw [length_filter_product, reasonPairs_comm]
  rfl

theorem length_le_sum_map (f : String → Nat) (l : List String) (h : ∀ a ∈ l, 1 ≤ f a) :
    l.length ≤ (l.map f).sum := by
  induction l with
  | nil => simp
  | cons a l ih =>
    have h1 := h a (List.mem_cons_self a l)
    have h2 := ih (fun b hb => h b (List.mem_cons_of_mem a hb))
    simp only [List.map_cons, List.sum_cons, List.length_cons]
    omega

theorem sum_map_le_length (f : String → Nat) (l : List String) (h : ∀ a ∈ l, f a ≤ 1) :
    (l.map f).sum ≤ l.length := by
  induction l with
  | nil => simp
  | cons a l ih =>
    have h1 := h a (List.mem_cons_self a l)
    have h2 := ih (fun b hb => h b (List.mem_cons_of_mem a hb))
    simp only [List.map_cons, List.sum_cons, List.length_cons]
    omega

theorem sum_map_eq_length_of_one_le (f : String → Nat) (l : List String)
    (h : ∀ a ∈ l, 1 ≤ f a) : (l.map f).sum = l.length ↔ ∀ a ∈ l, f a = 1 := by
  induction l with
  | nil => simp
  | cons a l ih =>
    have h1 := h a (List.mem_cons_self a l)
    have hl : ∀ b ∈ l, 1 ≤ f b := fun b hb => h b (List.mem_cons_of_mem a hb)
    have h2 := length_le_sum_map f l hl
    simp only [List.map_cons, List.sum_cons, List.length_cons, List.forall_mem_cons]
    rw [← ih hl]
    omega

theorem sum_map_eq_length_of_le_one (f : String → Nat) (l : List String)
    (h : ∀ a ∈ l, f a ≤ 1) : (l.map f).sum = l.length ↔ ∀ a ∈ l, f a = 1 := by
  induction l with
  | nil => simp
  | cons a l ih =>
    have h1 := h a (List.mem_cons_self a l)
    have hl : ∀ b ∈ l, f b ≤ 1 := fun b hb => h b (List.mem_cons_of_mem a hb)
    have h2 := sum_map_le_length f l hl
    simp only [List.map_cons, List.sum_cons, List.length_cons, List.forall_mem_cons]
    rw [← ih hl]
    omega

/-- A list of reasons pairs with itself exactly once per entry if and only if it has
no repetition. -/
theorem reasonPairs_self_iff (l : List String) : l.length = reasonPairs l l ↔ l.Nodup := by
  unfold reasonPairs
  rw [eq_comm, sum_map_eq_length_of_one_le (fun a => l.count a) l
    (fun a ha => List.count_pos_iff.mpr ha), List.nodup_iff_count_eq_one]

/-- Against a target list without repetition, the receiver list pairs once per entry
if and only if each of its entries occurs in the target list. -/
theorem reasonPairs_iff_subset (tr er : List String) (h : tr.Nodup) :
    er.length = reasonPairs tr er ↔ ∀ a ∈ er, a ∈ tr := by
  rw [reasonPairs_comm]
  unfold reasonPairs
  rw [eq_comm, sum_map_eq_length_of_le_one (fun a => tr.count a) er
    (fun a _ => List.nodup_iff_count_le_one.mp h a)]
  constructor
  · intro hall a ha
    exact List.count_pos_iff.mp (by rw [hall a ha]; exact Nat.one_pos)
  · intro hall a ha
    exact List.count_eq_one_of_mem h (hall a ha)

theorem length_reasons_of_allErrorInfo (ds : List Detail) (h : allErrorInfo ds = true) :
    (reasons ds).length = ds.length := by
  induction ds with
  | nil => rfl
  | cons d ds ih =>
    cases d with
    | errorInfo info =>
      have h' : allErrorInfo ds = true := by
        simpa [allErrorInfo, Detail.info?] using h
      simp [reasons_cons, Detail.info?, ih h']
    | other tag => simp [allErrorInfo, Detail.info?] at h

/-- Two lists without repetition have the same length and the first lies within the
second exactly when they have the same entries. -/
theorem nodup_sameEntries_iff (er tr : List String) (he : er.Nodup) (ht : tr.Nodup) :
    (er.length = tr.length ∧ ∀ a ∈ er, a ∈ tr) ↔ ∀ a, a ∈ er ↔ a ∈ tr := by
  constructor
  · rintro ⟨hlen, hsub⟩
    have hperm : er.Perm tr :=
      (List.subperm_of_subset he hsub).perm_of_length_le (le_of_eq hlen.symm)
    exact fun a => hperm.mem_iff
  · intro hsame
    have hperm : er.Perm tr := (List.perm_ext_iff_of_nodup he ht).mpr hsame
    exact ⟨hperm.length_eq, fun a ha => (hsame a).mp ha⟩

/-- On errors whose details are all `ErrorInfo` records with distinct reasons, `Is`
holds exactly when the codes agree and the reasons are the same. -/
theorem Is_iff_sameReasons (e t : Error) (he : allErrorInfo e.Details = true)
    (ht : allErrorInfo t.Details = true) (hne : (reasons e.Details).Nodup)
    (hnt : (reasons t.Details).Nodup) :
    e.Is (GoError.structured t) = true ↔
      e.Code = t.Code ∧ ∀ a, a ∈ reasons e.Details ↔ a ∈ reasons t.Details := by
  rw [Is_structured_eq, decide_eq_true_iff, reasonPairs_iff_subset _ _ hnt,
    ← length_reasons_of_allErrorInfo _ he, ← length_reasons_of_allErrorInfo _ ht,
    nodup_sameEntries_iff _ _ hne hnt]

/-! ### `WithDetails`, `New`, `Error()` and `Newf` -/

/-- C11: `WithDetails` is append-only and order-preserving.  After
`e.WithDetails(xs...)` the detail sequence is the old one followed by `xs`; after
`e.WithDetails(a, b)` the final two entries are `a` then `b` and the first `len(ds)`
entries are the old sequence. -/
theorem WithDetails_append (e : Error) (xs : List Detail) :
    (e.WithDetails xs).Details = e.Details ++ xs ∧
      (e.WithDetails xs).Details.take e.Details.length = e.Details ∧
      (e.WithDetails xs).Details.drop e.Details.length = xs ∧
      ∀ a b : Detail,
        (e.WithDetails [a, b]).Details.drop ((e.WithDetails [a, b]).Details.length - 2) = [a, b] ∧
          (e.WithDetails [a, b]).Details.take e.Details.length = e.Details := by
  refine ⟨rfl, ?_, ?_, ?_⟩
  · simp [Error.WithDetails]
  · simp [Error.WithDetails]
  · intro a b
    simp [Error.WithDetails]

/-- C12: for every code, every message (the empty string included) and every list of
details, `New(code, message, ds...)` is a `*Error` whose code, message and detail
sequence are exactly the arguments: nothing is validated or defaulted. -/
theorem New_fields (code : Int) (message : String) (ds : List Detail) :
    ∃ r : Error,
      New code message ds = GoError.structured r ∧ r.Code = code ∧ r.Message = message ∧
        r.Details = ds :=
  ⟨Error.mk code message ds, rfl, rfl, rfl, rfl⟩

/-- C13 (as stated) fails: the text of `Error()` is not a function of the code, the
message and the detail records alone.  The same error, with code 1, message "x" and
one `ErrorInfo` record of reason "A", prints `[0xc000010000]` when the record is
stored at address `0xc000010000` and `[0xc000010010]` when it is stored at
`0xc000010010`; the fields of the record appear in neither text. -/
theorem Error_address_counterexample :
    (Error.mk 1 "x" [Detail.errorInfo ⟨"A", "m"⟩]).Error
        (Fmt.mk (fun _ tag => tag) (fun format _ => format)) (fun _ => 0xc000010000) =
        "error: code = 1 desc = x details = [0xc000010000]" ∧
      (Error.mk 1 "x" [Detail.errorInfo ⟨"A", "m"⟩]).Error
        (Fmt.mk (fun _ tag => tag) (fun format _ => format)) (fun _ => 0xc000010010) =
        "error: code = 1 desc = x details = [0xc000010010]" ∧
      (Error.mk 1 "x" [Detail.errorInfo ⟨"A", "m"⟩]).Error
        (Fmt.mk (fun _ tag => tag) (fun format _ => format)) (fun _ => 0xc000010000) ≠
        (Error.mk 1 "x" [Detail.errorInfo ⟨"A", "m"⟩]).Error
          (Fmt.mk (fun _ tag => tag) (fun format _ => format)) (fun _ => 0xc000010010) := by
  decide

/-- C13 (amended): for every error `e`, `e.Error()` is `"error: code = "`, the code in
decimal, `" desc = "`, the message, `" details = "` and the rendering of the whole
detail sequence, concatenated; the rendering is an opening bracket, the text of
every value of the sequence in order, separated by single spaces, and a closing
bracket, where the text of an `ErrorInfo` record is the address of its pointer in
hexadecimal.  So the message appears verbatim, and the text is determined by the
code, the message, the addresses of the `ErrorInfo` pointers and the texts of the
other values: replacing the fields of the record at any position leaves it
unchanged. -/
theorem Error_eq (fmt : Fmt) (addr : Nat → Nat) (e : Error) :
    e.Error fmt addr =
        "error: code = " ++ decimal e.Code ++ " desc = " ++ e.Message ++ " details = " ++
          ("[" ++ " ".intercalate (e.Details.enum.map (fun p => detailText fmt addr p.1 p.2)) ++
            "]") ∧
      containsText (e.Error fmt addr) e.Message ∧
      (∀ (i : Nat) (info : ErrorInfo),
        Error.Error fmt addr { e with Details := replaceInfoAt e.Details i info } =
          e.Error fmt addr) ∧
      (Error.mk 404 "not found"
          [Detail.errorInfo ⟨"A", "m1"⟩, Detail.other "p", Detail.errorInfo ⟨"B", "m2"⟩]).Error
          fmt (fun i => 0xc000010000 + 16 * i) =
        "error: code = 404 desc = not found details = [0xc000010000 " ++ fmt.other true "p" ++
          " 0xc000010020]" ∧
      (Error.mk (-7) "" []).Error fmt addr = "error: code = -7 desc =  details = []" := by
  refine ⟨?_, Error_contains_message fmt addr e, ?_, ?_, ?_⟩
  · rw [Error_unfold, renderSlice_eq, map_elementText_elementsFrom]
    rfl
  · intro i info
    simp only [Error.Error, elementsFrom_replaceInfoAt]
  · have h1 : decimal 404 = "404" := by decide
    have h2 : pointerText 824633786368 = "0xc000010000" := by decide
    have h3 : pointerText 824633786400 = "0xc000010020" := by decide
    rw [Error_unfold, renderSlice_eq]
    apply String.ext
    simp [String.data_append, elementsFrom, elementText, String.intercalate,
      String.intercalate.go, h1, h2, h3]
  · have h1 : decimal (-7) = "-7" := by decide
    rw [Error_unfold, renderSlice_eq]
    apply String.ext
    simp [String.data_append, elementsFrom, String.intercalate, h1]

/-- C14: for every code, format and argument list, `Newf(code, format, args...)` is
`New(code, Sprintf(format, args...))`: its code is the code, its message is the
formatted string and its detail sequence is empty. -/
theorem Newf_eq_New (fmt : Fmt) (code : Int) (format : String) (a : List Operand) :
    Newf fmt code format a = New code (Sprintf fmt format a) [] ∧
      Newf fmt code format a =
        GoError.structured
          { Code := code, Message := Sprintf fmt format a, Details := [] } :=
  ⟨rfl, rfl⟩

/-- C15: for every code, format and argument list, the `Error()` text of
`Newf(code, format, args...)` contains the formatted message `Sprintf(format,
args...)`; for `Newf(404, "not found: %s", "id-1")` the formatted message is
`"not found: id-1"` and the `Error()` text contains it. -/
theorem Newf_Error_contains (fmt : Fmt) (addr : Nat → Nat) (code : Int) (format : String)
    (a : List Operand) :
    (∃ r : Error,
        Newf fmt code format a = GoError.structured r ∧
          containsText (r.Error fmt addr) (Sprintf fmt format a)) ∧
      Sprintf fmt "not found: %s" [Operand.str "id-1"] = "not found: id-1" ∧
      ∃ r : Error,
        Newf fmt 404 "not found: %s" [Operand.str "id-1"] = GoError.structured r ∧
          containsText (r.Error fmt addr) "not found: id-1" :=
  ⟨⟨Error.mk code (Sprintf fmt format a) [], rfl, Error_contains_message fmt addr _⟩, rfl,
    ⟨Error.mk 404 "not found: id-1" [], rfl, Error_contains_message fmt addr _⟩⟩

/-! ### More about `Is` -/

/-- C16: pair-count characterisation.  For a receiver `e` and a structured target
`t` with equal code and equal detail-sequence length, `e.Is(t)` is true if and only
if the number of pairs `(r, t')`, with `r` an `ErrorInfo` record of `e`'s details,
`t'` an `ErrorInfo` record of `t`'s details (both by position) and equal reasons,
equals the number of `ErrorInfo` records in `e`'s details. -/
theorem Is_iff_matchingPairs (e t : Error) (hc : e.Code = t.Code)
    (hl : e.Details.length = t.Details.length) :
    e.Is (GoError.structured t) = true ↔
      (matchingPairs e.Details t.Details).length = (infos e.Details).length := by
  have hlen : (reasons e.Details).length = (infos e.Details).length := by
    simp [reasons]
  rw [Is_structured_eq, length_matchingPairs, decide_eq_true_iff, hlen]
  constructor
  · intro h
    exact h.2.2.symm
  · intro h
    exact ⟨hc, hl, h.symm⟩

/-- C16, at a concrete input: receiver `[A, B, placeholder]`, target `[B, A, A]`
(three equal-reason pairs against two receiver records). -/
theorem Is_iff_matchingPairs_witness :
    (Error.mk 3 "x"
          [Detail.errorInfo ⟨"A", "m1"⟩, Detail.errorInfo ⟨"B", "m2"⟩, Detail.other "p"]).Code =
        (Error.mk 3 "y"
          [Detail.errorInfo ⟨"B", "m3"⟩, Detail.errorInfo ⟨"A", "m4"⟩,
            Detail.errorInfo ⟨"A", "m5"⟩]).Code ∧
      (Error.mk 3 "x"
          [Detail.errorInfo ⟨"A", "m1"⟩, Detail.errorInfo ⟨"B", "m2"⟩,
            Detail.other "p"]).Details.length =
        (Error.mk 3 "y"
          [Detail.errorInfo ⟨"B", "m3"⟩, Detail.errorInfo ⟨"A", "m4"⟩,
            Detail.errorInfo ⟨"A", "m5"⟩]).Details.length ∧
      ((Error.mk 3 "x"
            [Detail.errorInfo ⟨"A", "m1"⟩, Detail.errorInfo ⟨"B", "m2"⟩, Detail.other "p"]).Is
          (GoError.structured
            (Error.mk 3 "y"
              [Detail.errorInfo ⟨"B", "m3"⟩, Detail.errorInfo ⟨"A", "m4"⟩,
                Detail.errorInfo ⟨"A", "m5"⟩])) = true ↔
        (matchingPairs
            [Detail.errorInfo ⟨"A", "m1"⟩, Detail.errorInfo ⟨"B", "m2"⟩, Detail.other "p"]
            [Detail.errorInfo ⟨"B", "m3"⟩, Detail.errorInfo ⟨"A", "m4"⟩,
              Detail.errorInfo ⟨"A", "m5"⟩]).length =
          (infos
            [Detail.errorInfo ⟨"A", "m1"⟩, Detail.errorInfo ⟨"B", "m2"⟩,
              Detail.other "p"]).length) :=
  ⟨rfl, rfl,
    Is_iff_matchingPairs
      (Error.mk 3 "x"
        [Detail.errorInfo ⟨"A", "m1"⟩, Detail.errorInfo ⟨"B", "m2"⟩, Detail.other "p"])
      (Error.mk 3 "y"
        [Detail.errorInfo ⟨"B", "m3"⟩, Detail.errorInfo ⟨"A", "m4"⟩,
          Detail.errorInfo ⟨"A", "m5"⟩]) rfl rfl⟩

/-- C17: self-equivalence.  For every error `e`, `e.Is(e)` is true if and only if the
reasons of the `ErrorInfo` records in `e`'s details are pairwise distinct; so `Is` is
not reflexive: an error with two `ErrorInfo` records sharing a reason is not
equivalent to itself. -/
theorem Is_self_iff_nodup (e : Error) :
    (e.Is (GoError.structured e) = true ↔ (reasons e.Details).Nodup) ∧
      ∀ (c : Int) (m A m1 m2 : String),
        (Error.mk c m [Detail.errorInfo ⟨A, m1⟩, Detail.errorInfo ⟨A, m2⟩]).Is
          (GoError.structured
            (Error.mk c m [Detail.errorInfo ⟨A, m1⟩, Detail.errorInfo ⟨A, m2⟩])) = false := by
  constructor
  · rw [Is_structured_eq, decide_eq_true_iff, reasonPairs_self_iff]
    simp
  · intro c m A m1 m2
    simp [Is_structured_eq, reasons, infos, Detail.info?, reasonPairs]

/-- C18: subset semantics when the target's reasons are distinct.  For a receiver `e`
and a structured target `t` with equal code and equal detail-sequence length, if the
reasons of the `ErrorInfo` records in `t`'s details are pairwise distinct, then
`e.Is(t)` is true if and only if every `ErrorInfo` record in `e`'s details has a
reason that occurs among the `ErrorInfo` records of `t`'s details. -/
theorem Is_iff_subset_of_nodup (e t : Error) (hc : e.Code = t.Code)
    (hl : e.Details.length = t.Details.length) (hnt : (reasons t.Details).Nodup) :
    e.Is (GoError.structured t) = true ↔
      ∀ r ∈ infos e.Details, ∃ t' ∈ infos t.Details, t'.Reason = r.Reason := by
  rw [Is_structured_eq, decide_eq_true_iff, reasonPairs_iff_subset _ _ hnt]
  simp only [reasons, List.mem_map, List.forall_mem_map, hc, hl, true_and]
  simp

/-- C18, at a concrete input: receiver `[A, A]`, target `[A, B]`. -/
theorem Is_iff_subset_of_nodup_witness :
    (reasons [Detail.errorInfo ⟨"A", "m3"⟩, Detail.errorInfo ⟨"B", "m4"⟩]).Nodup ∧
      ((Error.mk 5 "x" [Detail.errorInfo ⟨"A", "m1"⟩, Detail.errorInfo ⟨"A", "m2"⟩]).Is
          (GoError.structured
            (Error.mk 5 "y" [Detail.errorInfo ⟨"A", "m3"⟩, Detail.errorInfo ⟨"B", "m4"⟩])) = true ↔
        ∀ r ∈ infos [Detail.errorInfo ⟨"A", "m1"⟩, Detail.errorInfo ⟨"A", "m2"⟩],
          ∃ t' ∈ infos [Detail.errorInfo ⟨"A", "m3"⟩, Detail.errorInfo ⟨"B", "m4"⟩],
            t'.Reason = r.Reason) :=
  ⟨by decide,
    Is_iff_subset_of_nodup
      (Error.mk 5 "x" [Detail.errorInfo ⟨"A", "m1"⟩, Detail.errorInfo ⟨"A", "m2"⟩])
      (Error.mk 5 "y" [Detail.errorInfo ⟨"A", "m3"⟩, Detail.errorInfo ⟨"B", "m4"⟩])
      rfl rfl (by decide)⟩

/-- C19: symmetry on well-formed inputs.  For errors `e` and `t` whose details are
all `ErrorInfo` records with pairwise distinct reasons within `e` and within `t`,
`e.Is(t) == t.Is(e)`, and both are true exactly when the codes are equal and the two
sets of reasons are equal. -/
theorem Is_symm_of_wellFormed (e t : Error) (he : allErrorInfo e.Details = true)
    (ht : allErrorInfo t.Details = true) (hne : (reasons e.Details).Nodup)
    (hnt : (reasons t.Details).Nodup) :
    e.Is (GoError.structured t) = t.Is (GoError.structured e) ∧
      (e.Is (GoError.structured t) = true ↔
        e.Code = t.Code ∧ ∀ a, a ∈ reasons e.Details ↔ a ∈ reasons t.Details) ∧
      (t.Is (GoError.structured e) = true ↔
        e.Code = t.Code ∧ ∀ a, a ∈ reasons e.Details ↔ a ∈ reasons t.Details) := by
  have h1 := Is_iff_sameReasons e t he ht hne hnt
  have h2 : t.Is (GoError.structured e) = true ↔
      e.Code = t.Code ∧ ∀ a, a ∈ reasons e.Details ↔ a ∈ reasons t.Details := by
    rw [Is_iff_sameReasons t e ht he hnt hne]
    constructor
    · rintro ⟨hc, hs⟩
      exact ⟨hc.symm, fun a => (hs a).symm⟩
    · rintro ⟨hc, hs⟩
      exact ⟨hc.symm, fun a => (hs a).symm⟩
  exact ⟨Bool.eq_iff_iff.mpr (h1.trans h2.symm), h1, h2⟩

/-- C19, at a concrete input: reasons `[A, B]` against `[B, A]`. -/
theorem Is_symm_of_wellFormed_witness :
    allErrorInfo [Detail.errorInfo ⟨"A", "m1"⟩, Detail.errorInfo ⟨"B", "m2"⟩] = true ∧
      allErrorInfo [Detail.errorInfo ⟨"B", "m3"⟩, Detail.errorInfo ⟨"A", "m4"⟩] = true ∧
      (reasons [Detail.errorInfo ⟨"A", "m1"⟩, Detail.errorInfo ⟨"B", "m2"⟩]).Nodup ∧
      (reasons [Detail.errorInfo ⟨"B", "m3"⟩, Detail.errorInfo ⟨"A", "m4"⟩]).Nodup ∧
      (Error.mk 9 "x" [Detail.errorInfo ⟨"A", "m1"⟩, Detail.errorInfo ⟨"B", "m2"⟩]).Is
          (GoError.structured
            (Error.mk 9 "y" [Detail.errorInfo ⟨"B", "m3"⟩, Detail.errorInfo ⟨"A", "m4"⟩])) =
        (Error.mk 9 "y" [Detail.errorInfo ⟨"B", "m3"⟩, Detail.errorInfo ⟨"A", "m4"⟩]).Is
          (GoError.structured
            (Error.mk 9 "x" [Detail.errorInfo ⟨"A", "m1"⟩, Detail.errorInfo ⟨"B", "m2"⟩])) :=
  ⟨by decide, by decide, by decide, by decide,
    (Is_symm_of_wellFormed
      (Error.mk 9 "x" [Detail.errorInfo ⟨"A", "m1"⟩, Detail.errorInfo ⟨"B", "m2"⟩])
      (Error.mk 9 "y" [Detail.errorInfo ⟨"B", "m3"⟩, Detail.errorInfo ⟨"A", "m4"⟩])
      (by decide) (by decide) (by decide) (by decide)).1⟩

/-- C20: `WithDetails` changes only the detail sequence.  After `e.WithDetails(xs...)`
the code and the message of `e` are what they were, and a call with no arguments
leaves the detail sequence equal to what it was. -/
theorem WithDetails_frame (e : Error) (xs : List Detail) :
    (e.WithDetails xs).Code = e.Code ∧ (e.WithDetails xs).Message = e.Message ∧
      (e.WithDetails []).Details = e.Details := by
  refine ⟨rfl, rfl, ?_⟩
  simp [Error.WithDetails]

end errors
